import Mathlib

/-!
# Verification of the crypton-backend relationship/messaging core

Shallow embedding of `app/core/models.py` and `app/api/views.py`.
The relational store is modelled as lists of rows; Django manager methods
become pure functions on a `Store`; a raised `ValidationError` / DRF error
becomes an error value produced *before* any row is inserted, mirroring the
control flow of the Python source.
-/

/-- Row of the `User` table (`core.models.User`). `pk` is the auto primary key. -/
structure User where
  pk : Nat
  crypto_key : Nat
  username : String
  email : String
  is_active : Bool
  is_staff : Bool
deriving Repr, DecidableEq

/-- Row of the `FriendRequest` table (`core.models.FriendRequest`).
`created_on` is a date modelled as a number. -/
structure FriendRequest where
  pk : Nat
  to_user : Nat
  from_user : Nat
  is_new : Bool
  is_accepted : Bool
  created_on : Nat
deriving Repr, DecidableEq

/-- Row of the `Friend` table (`core.models.Friend`). -/
structure Friend where
  pk : Nat
  user : Nat
  users_nickname : Option String
  friend_of : Nat
  start_date : Nat
  is_blocked : Bool
deriving Repr, DecidableEq

/-- Row of the `Message` table (`core.models.Message`). `sent_on` is the
server-assigned timestamp, modelled as a number. -/
structure Message where
  pk : Nat
  content : String
  to_user : Nat
  from_user : Nat
  is_new : Bool
  sent_on : Nat
deriving Repr, DecidableEq

/-- The relational store: one list of rows per table, in insertion order
(Django querysets without `order_by` are modelled as returning table order).
`nextPk` models the auto-increment primary-key counter. -/
structure Store where
  users : List User
  friendRequests : List FriendRequest
  friends : List Friend
  messages : List Message
  nextPk : Nat
deriving Repr, DecidableEq

/-- The store with no rows. -/
def emptyStore : Store := ⟨[], [], [], [], 0⟩

/-- The distinct `ValidationError`s raised by the three custom managers in
`core/models.py` (identified by their message text in the source). -/
inductive Err where
  /-- `Similar FriendRequest already exists` -/
  | duplicateRequest
  /-- `FriendRequest must exist to create a Friend` -/
  | noFriendRequest
  /-- `FriendRequest must be accepted to create a Friend` -/
  | requestNotAccepted
  /-- `Message cant be created because Users arent friends` -/
  | usersNotFriends
deriving Repr, DecidableEq

/-- Errors surfaced by the view layer (`api/views.py`): DRF `ValidationError`
for a missing `friend_pk`, `Http404` from `get_object_or_404`,
`PermissionDenied`, and the uncaught `MultipleObjectsReturned` that
`get_object_or_404` lets escape (a 500) when more than one row matches its
lookup. -/
inductive HttpErr where
  | noFriendPk
  | notFound
  | forbidden
  | multipleObjectsReturned
deriving Repr, DecidableEq

/-- `FriendRequestManager.get_or_none` (`core/models.py`): looks up the
request sent from `from_user` to `to_user` first, then the one sent in the
opposite direction, returning the first row of whichever filter is nonempty. -/
def get_or_none (s : Store) (from_user to_user : Nat) : Option FriendRequest :=
  let sent_friend_request :=
    s.friendRequests.filter fun r => r.to_user == to_user && r.from_user == from_user
  match sent_friend_request.head? with
  | some r => some r
  | none =>
    let received_friend_request :=
      s.friendRequests.filter fun r => r.to_user == from_user && r.from_user == to_user
    received_friend_request.head?

/-- `FriendRequestManager.create`: runs
`_validate_friend_request_existence` (which raises `ValidationError` when
`get_or_none` finds a request in either direction) and only then inserts the
new row with field defaults `is_new=True`, `is_accepted=False`. Returns the
(possibly unchanged) store together with the raised error, if any. -/
def friendRequestCreate (s : Store) (from_user to_user : Nat) : Store × Option Err :=
  match get_or_none s from_user to_user with
  | some _ => (s, some Err.duplicateRequest)
  | none =>
    ({ s with
        friendRequests :=
          s.friendRequests ++ [⟨s.nextPk, to_user, from_user, true, false, 0⟩],
        nextPk := s.nextPk + 1 }, none)

/-- `FriendManager.are_friends` (`core/models.py`): a `Friend` row exists in
either direction between the two users. -/
def are_friends (s : Store) (first_user second_user : Nat) : Bool :=
  (s.friends.any fun f => f.user == first_user && f.friend_of == second_user) ||
  (s.friends.any fun f => f.user == second_user && f.friend_of == first_user)

/-- `FriendManager.create`: `_validate_friend_request` looks up
`get_or_none(from_user=user, to_user=friend_of)`, raising distinct errors when
no request exists or when the found request is not accepted; only then is the
`Friend` row inserted (defaults `users_nickname=None`, `is_blocked=False`). -/
def friendCreate (s : Store) (user friend_of : Nat) : Store × Option Err :=
  match get_or_none s user friend_of with
  | none => (s, some Err.noFriendRequest)
  | some friend_request =>
    if !friend_request.is_accepted then (s, some Err.requestNotAccepted)
    else
      ({ s with
          friends := s.friends ++ [⟨s.nextPk, user, none, friend_of, 0, false⟩],
          nextPk := s.nextPk + 1 }, none)

/-- `MessageManager.create`: `_validate_friendship` calls
`Friend.objects.are_friends(kwargs[to_user], kwargs[from_user])` (note the
argument order of the source) and raises unless it holds; only then is the
`Message` row inserted (default `is_new=True`; `sent_on` is the call-time
timestamp). -/
def messageCreate (s : Store) (content : String) (to_user from_user : Nat)
    (sent_on : Nat) : Store × Option Err :=
  if !are_friends s to_user from_user then (s, some Err.usersNotFriends)
  else
    ({ s with
        messages := s.messages ++ [⟨s.nextPk, content, to_user, from_user, true, sent_on⟩],
        nextPk := s.nextPk + 1 }, none)

/-- `random.randint(lo, hi)` draws uniformly from the inclusive range
`[lo, hi]`; modelled by reducing an arbitrary tape value `x` into the range. -/
def randint (lo hi x : Nat) : Nat := lo + x % (hi - lo + 1)

/-- `UserManager._generate_crypto_key` (`core/models.py`):

    key = random.randint(100000000, 999999999)
    if self.filter(crypto_key=key).exists():
        self._generate_crypto_key()
    return key

`existing` is the set of crypto keys already in the store; `draws` is the tape
of random draws (one consumed per call; `none` when the tape is exhausted
before the recursion returns). Note the source *discards* the result of the
recursive call and returns the first drawn `key` unconditionally. -/
def generate_crypto_key (existing : List Nat) : List Nat → Option Nat
  | [] => none
  | x :: xs =>
    let key := randint 100000000 999999999 x
    if existing.contains key then
      match generate_crypto_key existing xs with
      | none => none
      | some _ => some key
    else some key

/-- The bound declared by `MinValueValidator(1000000000)` on `User.crypto_key`. -/
def crypto_key_declared_min : Nat := 1000000000

/-- The bound declared by `MaxValueValidator(999999999)` on `User.crypto_key`. -/
def crypto_key_declared_max : Nat := 999999999

/-- A value passes both declared validators of the `crypto_key` field. -/
def crypto_key_validators_pass (k : Nat) : Prop :=
  crypto_key_declared_min ≤ k ∧ k ≤ crypto_key_declared_max

/-- Result record of the view helper `friend_request_info` (`api/views.py`):
`sent_by`/`sent_to` are the `exists()` flags and `instance_` the chosen row. -/
structure FriendRequestInfo where
  sent_by : Bool
  sent_to : Bool
  instance_ : Option FriendRequest
deriving Repr, DecidableEq

/-- `friend_request_info(first_user_pk, second_user_pk)` (`api/views.py`):
filters the requests sent by the first user and those sent to them, and picks
`sent_by[0]`, else `sent_to[0]`, else `None`. -/
def friend_request_info (s : Store) (first_user_pk second_user_pk : Nat) :
    FriendRequestInfo :=
  let friend_request_sent_by_user :=
    s.friendRequests.filter fun r =>
      r.to_user == second_user_pk && r.from_user == first_user_pk
  let friend_request_sent_to_user :=
    s.friendRequests.filter fun r =>
      r.to_user == first_user_pk && r.from_user == second_user_pk
  let friend_request :=
    match friend_request_sent_by_user.head? with
    | some r => some r
    | none => friend_request_sent_to_user.head?
  ⟨!friend_request_sent_by_user.isEmpty, !friend_request_sent_to_user.isEmpty,
    friend_request⟩

/-- `ManageFriendRequestView.get_object` (`api/views.py`): `get_object_or_404`
by primary key, then `PermissionDenied` unless the logged-in user is the
request's `to_user`. All of retrieve, update and delete go through this. -/
def getFriendRequestObject (s : Store) (request_user pk : Nat) :
    Except HttpErr FriendRequest :=
  match s.friendRequests.find? fun r => r.pk == pk with
  | none => Except.error HttpErr.notFound
  | some friend_request =>
    if request_user != friend_request.to_user then Except.error HttpErr.forbidden
    else Except.ok friend_request

/-- PATCH/PUT on `ManageFriendRequestView`: fetch the object through
`get_object` (permission check included) and write the fields provided in the
payload. `FriendRequestSerializer` (`api/serializers.py`) lists
`from_user`, `to_user`, `is_new` and `is_accepted` as its fields with no
read-only marking, so a PATCH can rewrite the request's endpoints, not just
its flags; a field absent from the payload (`none`) keeps its stored value. -/
def updateFriendRequest (s : Store) (request_user pk : Nat)
    (patch_to patch_from : Option Nat) (patch_new patch_acc : Option Bool) :
    Except HttpErr Store :=
  match getFriendRequestObject s request_user pk with
  | Except.error e => Except.error e
  | Except.ok _ =>
    Except.ok { s with
      friendRequests := s.friendRequests.map fun r =>
        if r.pk == pk then
          { r with
              to_user := patch_to.getD r.to_user,
              from_user := patch_from.getD r.from_user,
              is_new := patch_new.getD r.is_new,
              is_accepted := patch_acc.getD r.is_accepted }
        else r }

/-- DELETE on `ManageFriendRequestView`: fetch the object through
`get_object` (permission check included) and remove the row. -/
def deleteFriendRequest (s : Store) (request_user pk : Nat) :
    Except HttpErr Store :=
  match getFriendRequestObject s request_user pk with
  | Except.error e => Except.error e
  | Except.ok _ =>
    Except.ok { s with
      friendRequests := s.friendRequests.filter fun r => r.pk != pk }

/-- Descending-timestamp order used by `order_by(-sent_on)`. -/
def msgLater (m1 m2 : Message) : Prop := m2.sent_on ≤ m1.sent_on

instance : DecidableRel msgLater := fun m1 m2 => Nat.decLe m2.sent_on m1.sent_on

instance : IsTotal Message msgLater := ⟨fun a b => Nat.le_total b.sent_on a.sent_on⟩

instance : IsTrans Message msgLater := ⟨fun _ _ _ h1 h2 => Nat.le_trans h2 h1⟩

/-- Membership predicate of the queryset union
`messages_from_friend | messages_to_user` in `ListMessageView.get_queryset`:
a message between the pair, in either direction. -/
def betweenUsers (current_user friend_pk : Nat) (m : Message) : Bool :=
  (m.to_user == current_user && m.from_user == friend_pk) ||
  (m.to_user == friend_pk && m.from_user == current_user)

/-- `ListMessageView.get_queryset` (`api/views.py`): `ValidationError` when no
`friend_pk` query parameter is given; 404 when no user with that pk exists.
Then `get_object_or_404(Friend, user=friend_pk, friend_of=current_user)` runs
`queryset.get()` on the single direction `(user=other, friend_of=current)`:
no matching row → `Http404`; more than one matching row (duplicate Friend
rows carry no uniqueness constraint) → `MultipleObjectsReturned` escapes
uncaught; exactly one row → the union of the messages in both directions,
ordered by `sent_on` descending (a stable sort models `order_by(-sent_on)`). -/
def listConversation (s : Store) (current_user : Nat) (friend_pk : Option Nat) :
    Except HttpErr (List Message) :=
  match friend_pk with
  | none => Except.error HttpErr.noFriendPk
  | some fpk =>
    if !(s.users.any fun u => u.pk == fpk) then Except.error HttpErr.notFound
    else
      match s.friends.filter fun f => f.user == fpk && f.friend_of == current_user with
      | [] => Except.error HttpErr.notFound
      | [_] =>
        Except.ok (List.insertionSort msgLater
          (s.messages.filter (betweenUsers current_user fpk)))
      | _ :: _ :: _ => Except.error HttpErr.multipleObjectsReturned

/-- A request connects the unordered pair `{a, b}` (either direction). -/
def pairMatches (a b : Nat) (r : FriendRequest) : Bool :=
  (r.from_user == a && r.to_user == b) || (r.from_user == b && r.to_user == a)

/-- All `FriendRequest` rows between the unordered pair `{a, b}`. -/
def requestsBetween (s : Store) (a b : Nat) : List FriendRequest :=
  s.friendRequests.filter (pairMatches a b)

/-- At most one `FriendRequest` row exists between any unordered pair. -/
def pairUnique (s : Store) : Prop :=
  ∀ a b, (requestsBetween s a b).length ≤ 1

/-- The operations that touch the `FriendRequest` table: creation through
`FriendRequestManager.create` and update/delete through
`ManageFriendRequestView` (failures leave the store unchanged). -/
inductive ReqOp where
  | send (from_user to_user : Nat)
  | update (actor pk : Nat) (patch_to patch_from : Option Nat)
      (patch_new patch_acc : Option Bool)
  | delete (actor pk : Nat)
deriving Repr, DecidableEq

/-- One step of the request lifecycle; a failed operation is a no-op on the
store (the exception propagates before any write). -/
def applyReqOp (s : Store) : ReqOp → Store
  | ReqOp.send a b => (friendRequestCreate s a b).1
  | ReqOp.update actor pk pt pf pn pa =>
    match updateFriendRequest s actor pk pt pf pn pa with
    | Except.ok s' => s'
    | Except.error _ => s
  | ReqOp.delete actor pk =>
    match deleteFriendRequest s actor pk with
    | Except.ok s' => s'
    | Except.error _ => s

/-- Run a sequence of request-table operations. -/
def runReqOps (s : Store) (ops : List ReqOp) : Store := ops.foldl applyReqOp s

/-- The operation leaves every request's endpoints (`from_user`/`to_user`)
untouched: creation, deletion, or an update whose payload carries only the
`is_new`/`is_accepted` flags. -/
def flagsOnly : ReqOp → Bool
  | ReqOp.update _ _ patch_to patch_from _ _ =>
    patch_to == none && patch_from == none
  | _ => true

/-! ## Helper lemmas about the symmetric pair lookup -/

theorem pairMatches_comm (a b : Nat) (r : FriendRequest) :
    pairMatches a b r = pairMatches b a r := by
  simp [pairMatches, Bool.or_comm]

theorem requestsBetween_comm (s : Store) (a b : Nat) :
    requestsBetween s a b = requestsBetween s b a :=
  List.filter_congr fun r _ => pairMatches_comm a b r

theorem filter_or_eq_nil {α : Type} (p q : α → Bool) (l : List α) :
    (l.filter fun x => p x || q x) = [] ↔ l.filter p = [] ∧ l.filter q = [] := by
  simp only [List.filter_eq_nil_iff, Bool.or_eq_true]
  constructor
  · intro h
    exact ⟨fun a ha hp => h a ha (Or.inl hp), fun a ha hq => h a ha (Or.inr hq)⟩
  · rintro ⟨h1, h2⟩ a ha (hp | hq)
    · exact h1 a ha hp
    · exact h2 a ha hq

theorem get_or_none_eq_none_iff (s : Store) (a b : Nat) :
    get_or_none s a b = none ↔ requestsBetween s a b = [] := by
  have hcongr : requestsBetween s a b =
      s.friendRequests.filter fun r =>
        (r.to_user == b && r.from_user == a) || (r.to_user == a && r.from_user == b) := by
    refine List.filter_congr fun r _ => ?_
    simp [pairMatches, Bool.and_comm]
  rw [hcongr, filter_or_eq_nil]
  simp only [get_or_none]
  cases h1 : (s.friendRequests.filter fun r => r.to_user == b && r.from_user == a).head? with
  | none =>
    rw [List.head?_eq_none_iff] at h1
    simp [h1, List.head?_eq_none_iff]
  | some r1 =>
    rw [List.head?_eq_some_iff] at h1
    obtain ⟨ys, hys⟩ := h1
    simp [hys]

theorem get_or_none_mem (s : Store) (a b : Nat) (r : FriendRequest)
    (h : get_or_none s a b = some r) :
    r ∈ s.friendRequests ∧ pairMatches a b r = true := by
  simp only [get_or_none] at h
  cases h1 : (s.friendRequests.filter fun r => r.to_user == b && r.from_user == a).head? with
  | none =>
    rw [h1] at h
    simp only [] at h
    rw [List.head?_eq_some_iff] at h
    obtain ⟨ys, hys⟩ := h
    have hr : r ∈ s.friendRequests.filter fun q => q.to_user == a && q.from_user == b := by
      rw [hys]; exact List.mem_cons_self r ys
    rw [List.mem_filter] at hr
    refine ⟨hr.1, ?_⟩
    have := hr.2
    simp only [Bool.and_eq_true, beq_iff_eq] at this
    simp [pairMatches, this.1, this.2]
  | some r1 =>
    rw [h1] at h
    simp only [Option.some.injEq] at h
    subst h
    rw [List.head?_eq_some_iff] at h1
    obtain ⟨ys, hys⟩ := h1
    have hr : r1 ∈ s.friendRequests.filter fun q => q.to_user == b && q.from_user == a := by
      rw [hys]; exact List.mem_cons_self r1 ys
    rw [List.mem_filter] at hr
    refine ⟨hr.1, ?_⟩
    have := hr.2
    simp only [Bool.and_eq_true, beq_iff_eq] at this
    simp [pairMatches, this.1, this.2]

theorem get_or_none_of_singleton (s : Store) (a b : Nat) (r : FriendRequest)
    (h : requestsBetween s a b = [r]) : get_or_none s a b = some r := by
  cases hg : get_or_none s a b with
  | none =>
    rw [get_or_none_eq_none_iff, h] at hg
    cases hg
  | some x =>
    obtain ⟨hmem, hpm⟩ := get_or_none_mem s a b x hg
    have hx : x ∈ requestsBetween s a b := by
      unfold requestsBetween
      exact List.mem_filter.mpr ⟨hmem, hpm⟩
    rw [h, List.mem_singleton] at hx
    rw [hx]

theorem length_filter_and_le {α : Type} (p q : α → Bool) (l : List α) :
    (l.filter fun x => p x && q x).length ≤ (l.filter p).length := by
  induction l with
  | nil => simp
  | cons x xs ih =>
    cases hp : p x <;> cases hq : q x <;>
      simp [List.filter_cons, hp, hq] <;> omega

/-! ## Preservation of pair uniqueness by the request operations -/

theorem pairUnique_send (s : Store) (a b : Nat) (hu : pairUnique s) :
    pairUnique (friendRequestCreate s a b).1 := by
  cases hg : get_or_none s a b with
  | some r =>
    simp only [friendRequestCreate, hg]
    exact hu
  | none =>
    have hempty : requestsBetween s a b = [] := (get_or_none_eq_none_iff s a b).mp hg
    intro x y
    simp only [friendRequestCreate, hg]
    unfold requestsBetween at hempty ⊢
    rw [List.filter_append, List.length_append]
    by_cases hpm :
        pairMatches x y (⟨s.nextPk, b, a, true, false, 0⟩ : FriendRequest) = true
    · have hxy : List.filter (pairMatches x y) s.friendRequests = [] := by
        simp only [pairMatches, Bool.or_eq_true, Bool.and_eq_true, beq_iff_eq] at hpm
        rcases hpm with ⟨h1, h2⟩ | ⟨h1, h2⟩
        · subst h1; subst h2; exact hempty
        · subst h1; subst h2
          rw [List.filter_congr fun r _ => pairMatches_comm b a r]
          exact hempty
      simp [hxy, hpm]
    · have hnew :
          List.filter (pairMatches x y)
            [(⟨s.nextPk, b, a, true, false, 0⟩ : FriendRequest)] = [] := by
        simp [hpm]
      rw [hnew]
      simpa using hu x y

theorem pairUnique_applyReqOp (s : Store) (op : ReqOp)
    (hf : flagsOnly op = true) (hu : pairUnique s) :
    pairUnique (applyReqOp s op) := by
  cases op with
  | send a b => exact pairUnique_send s a b hu
  | update actor pk pt pf pn pa =>
    simp only [flagsOnly, Bool.and_eq_true, beq_iff_eq] at hf
    obtain ⟨hpt, hpf⟩ := hf
    subst hpt
    subst hpf
    unfold applyReqOp updateFriendRequest
    cases hg : getFriendRequestObject s actor pk with
    | error e =>
      simp only [hg]
      exact hu
    | ok fr =>
      simp only [hg]
      intro x y
      unfold requestsBetween
      rw [List.filter_map, List.length_map]
      rw [List.filter_congr (q := pairMatches x y) ?_]
      · exact hu x y
      · intro r _
        show pairMatches x y (if r.pk == pk then
          { r with
              to_user := (none : Option Nat).getD r.to_user,
              from_user := (none : Option Nat).getD r.from_user,
              is_new := pn.getD r.is_new,
              is_accepted := pa.getD r.is_accepted }
            else r) = pairMatches x y r
        by_cases h : (r.pk == pk) = true
        · simp [h, pairMatches]
        · simp [h]
  | delete actor pk =>
    unfold applyReqOp deleteFriendRequest
    cases hg : getFriendRequestObject s actor pk with
    | error e =>
      simp only [hg]
      exact hu
    | ok fr =>
      simp only [hg]
      intro x y
      unfold requestsBetween
      rw [List.filter_filter]
      calc (s.friendRequests.filter fun r => pairMatches x y r && (r.pk != pk)).length
          ≤ (s.friendRequests.filter (pairMatches x y)).length :=
            length_filter_and_le (pairMatches x y) (fun r => r.pk != pk) s.friendRequests
        _ ≤ 1 := hu x y

theorem pairUnique_runReqOps (s : Store) (ops : List ReqOp)
    (hf : ∀ op ∈ ops, flagsOnly op = true) (hu : pairUnique s) :
    pairUnique (runReqOps s ops) := by
  induction ops generalizing s with
  | nil => exact hu
  | cons op rest ih =>
    exact ih (applyReqOp s op)
      (fun o ho => hf o (List.mem_cons_of_mem op ho))
      (pairUnique_applyReqOp s op (hf op (List.mem_cons_self op rest)) hu)

/-! ## Claim theorems -/

/-- Claim C1 (amended): for two users with no existing FriendRequest between
them in either direction, `FriendRequestManager.create` succeeds; when a
request already exists between them in either direction, creating in either
direction fails with the duplicate-request `ValidationError`; and after any
sequence of request operations whose updates write only the
`is_new`/`is_accepted` flags, at most one FriendRequest exists between any
unordered pair of users. (A PATCH whose payload rewrites
`from_user`/`to_user` — which `FriendRequestSerializer` permits — can break
the invariant; see the mirrored-pair counterexample.) -/
theorem friendRequest_pair_uniqueness (s : Store) (a b : Nat) (ops : List ReqOp) :
    (requestsBetween s a b = [] → (friendRequestCreate s a b).2 = none) ∧
    (requestsBetween s a b ≠ [] →
      (friendRequestCreate s a b).2 = some Err.duplicateRequest ∧
      (friendRequestCreate s b a).2 = some Err.duplicateRequest) ∧
    ((∀ op ∈ ops, flagsOnly op = true) → pairUnique s →
      pairUnique (runReqOps s ops)) := by
  refine ⟨?_, ?_, fun hf hu => pairUnique_runReqOps s ops hf hu⟩
  · intro h
    have hg : get_or_none s a b = none := (get_or_none_eq_none_iff s a b).mpr h
    simp [friendRequestCreate, hg]
  · intro h
    have h2 : requestsBetween s b a ≠ [] := by
      rw [requestsBetween_comm s b a]
      exact h
    constructor
    · cases hg : get_or_none s a b with
      | none => exact absurd ((get_or_none_eq_none_iff s a b).mp hg) h
      | some r => simp [friendRequestCreate, hg]
    · cases hg : get_or_none s b a with
      | none => exact absurd ((get_or_none_eq_none_iff s b a).mp hg) h2
      | some r => simp [friendRequestCreate, hg]

/-- Witness for C1: creating 1→2 when 2→1 already exists is rejected as a
duplicate, and pair uniqueness holds after a concrete operation sequence. -/
theorem friendRequest_pair_uniqueness_witness :
    (friendRequestCreate ⟨[], [⟨0, 1, 2, true, false, 0⟩], [], [], 1⟩ 1 2).2 =
      some Err.duplicateRequest ∧
    pairUnique (runReqOps emptyStore [ReqOp.send 1 2, ReqOp.send 2 1]) := by
  constructor
  · exact ((friendRequest_pair_uniqueness
      ⟨[], [⟨0, 1, 2, true, false, 0⟩], [], [], 1⟩ 1 2 []).2.1 (by decide)).1
  · refine (friendRequest_pair_uniqueness emptyStore 0 0
      [ReqOp.send 1 2, ReqOp.send 2 1]).2.2 (by decide) ?_
    intro a b
    simp [requestsBetween, emptyStore]

/-- Counterexample to C1 as stated: starting from the empty store, send 1→2,
send 3→4, then let user 4 (the recipient, so the permission gate passes)
PATCH request pk=1 with payload `to_user=1, from_user=2` — the serializer
accepts it and the row becomes 2→1, mirroring 1→2. Two FriendRequests now
exist between the unordered pair {1, 2}, refuting the claim that at most one
exists after any sequence of operations. -/
theorem friendRequest_update_breaks_pair_uniqueness :
    (requestsBetween
      (runReqOps emptyStore
        [ReqOp.send 1 2, ReqOp.send 3 4,
         ReqOp.update 4 1 (some 1) (some 2) none none])
      1 2).length = 2 := by
  decide

/-- Claim C6: `are_friends` is symmetric, and it is true exactly when a
Friend row `(user=A, friend_of=B)` or `(user=B, friend_of=A)` exists. -/
theorem are_friends_symmetric_characterization (s : Store) (a b : Nat) :
    are_friends s a b = are_friends s b a ∧
    (are_friends s a b = true ↔
      ∃ f ∈ s.friends,
        (f.user = a ∧ f.friend_of = b) ∨ (f.user = b ∧ f.friend_of = a)) := by
  constructor
  · simp [are_friends, Bool.or_comm]
  · simp only [are_friends, Bool.or_eq_true, List.any_eq_true, Bool.and_eq_true,
      beq_iff_eq]
    constructor
    · rintro (⟨f, hf, h1, h2⟩ | ⟨f, hf, h1, h2⟩)
      · exact ⟨f, hf, Or.inl ⟨h1, h2⟩⟩
      · exact ⟨f, hf, Or.inr ⟨h1, h2⟩⟩
    · rintro ⟨f, hf, ⟨h1, h2⟩ | ⟨h1, h2⟩⟩
      · exact Or.inl ⟨f, hf, h1, h2⟩
      · exact Or.inr ⟨f, hf, h1, h2⟩

/-- Claim C9: the view-layer helper `friend_request_info` and the manager
lookup `get_or_none` produce the same instance for every store and pair, and
both yield none exactly when no request exists in either direction. -/
theorem friend_request_info_refines_get_or_none (s : Store) (a b : Nat) :
    (friend_request_info s a b).instance_ = get_or_none s a b ∧
    ((friend_request_info s a b).instance_ = none ↔ requestsBetween s a b = []) := by
  have heq : (friend_request_info s a b).instance_ = get_or_none s a b := by
    simp only [friend_request_info, get_or_none]
  refine ⟨heq, ?_⟩
  rw [heq]
  exact get_or_none_eq_none_iff s a b

/-- Claim C4: creating a Message fails with the not-friends error (store
unchanged) when `are_friends(from, to)` is false against the current Friend
state, and succeeds — the Message row is inserted — when it is true. -/
theorem message_creation_requires_friendship (s : Store) (content : String)
    (from_user to_user sent_on : Nat) :
    (are_friends s from_user to_user = false →
      messageCreate s content to_user from_user sent_on =
        (s, some Err.usersNotFriends)) ∧
    (are_friends s from_user to_user = true →
      (messageCreate s content to_user from_user sent_on).2 = none ∧
      (⟨s.nextPk, content, to_user, from_user, true, sent_on⟩ : Message) ∈
        (messageCreate s content to_user from_user sent_on).1.messages) := by
  have hsymm : are_friends s to_user from_user = are_friends s from_user to_user := by
    simp [are_friends, Bool.or_comm]
  constructor
  · intro h
    simp [messageCreate, hsymm, h]
  · intro h
    simp [messageCreate, hsymm, h]

/-- Witness for C4: with the single Friend row (user=1, friend_of=2), user 1
can message user 2 and the row lands in the store. -/
theorem message_creation_requires_friendship_witness :
    (messageCreate ⟨[], [], [⟨0, 1, none, 2, 0, false⟩], [], 1⟩ "hi" 2 1 5).2 = none ∧
    (⟨1, "hi", 2, 1, true, 5⟩ : Message) ∈
      (messageCreate ⟨[], [], [⟨0, 1, none, 2, 0, false⟩], [], 1⟩ "hi" 2 1 5).1.messages :=
  (message_creation_requires_friendship
    ⟨[], [], [⟨0, 1, none, 2, 0, false⟩], [], 1⟩ "hi" 1 2 5).2 (by decide)

/-- Store used to witness C8: it holds exactly one FriendRequest 1→2. -/
def exS8 : Store := ⟨[], [⟨0, 2, 1, true, false, 0⟩], [], [], 1⟩

/-- Claim C8: each consistency-checked create (FriendRequest, Friend,
Message) raises its validation error before inserting anything, so on the
error path the returned store is exactly the input store. -/
theorem create_error_leaves_store_unchanged (s : Store) (a b user friend_of : Nat)
    (content : String) (to_user from_user sent_on : Nat) (e1 e2 e3 : Err) :
    ((friendRequestCreate s a b).2 = some e1 → (friendRequestCreate s a b).1 = s) ∧
    ((friendCreate s user friend_of).2 = some e2 →
      (friendCreate s user friend_of).1 = s) ∧
    ((messageCreate s content to_user from_user sent_on).2 = some e3 →
      (messageCreate s content to_user from_user sent_on).1 = s) := by
  refine ⟨?_, ?_, ?_⟩
  · cases hg : get_or_none s a b with
    | some r =>
      intro _
      simp [friendRequestCreate, hg]
    | none =>
      intro h
      simp [friendRequestCreate, hg] at h
  · cases hg : get_or_none s user friend_of with
    | none =>
      intro _
      simp [friendCreate, hg]
    | some fr =>
      cases hacc : fr.is_accepted with
      | false =>
        intro _
        simp [friendCreate, hg, hacc]
      | true =>
        intro h
        simp [friendCreate, hg, hacc] at h
  · cases haf : are_friends s to_user from_user with
    | false =>
      intro _
      simp [messageCreate, haf]
    | true =>
      intro h
      simp [messageCreate, haf] at h

/-- Witness for C8: in `exS8` the duplicate request 1→2, a Friend for the
request-less pair (3,4), and a Message between the non-friends 2 and 1 all
fail, each leaving the store untouched. -/
theorem create_error_leaves_store_unchanged_witness :
    (friendRequestCreate exS8 1 2).1 = exS8 ∧
    (friendCreate exS8 3 4).1 = exS8 ∧
    (messageCreate exS8 "x" 2 1 0).1 = exS8 :=
  ⟨(create_error_leaves_store_unchanged exS8 1 2 3 4 "x" 2 1 0
      Err.duplicateRequest Err.noFriendRequest Err.usersNotFriends).1 (by decide),
   (create_error_leaves_store_unchanged exS8 1 2 3 4 "x" 2 1 0
      Err.duplicateRequest Err.noFriendRequest Err.usersNotFriends).2.1 (by decide),
   (create_error_leaves_store_unchanged exS8 1 2 3 4 "x" 2 1 0
      Err.duplicateRequest Err.noFriendRequest Err.usersNotFriends).2.2 (by decide)⟩

/-- Store with the single unaccepted FriendRequest 1→2 (witness fixture). -/
def exNA : Store := ⟨[], [⟨0, 2, 1, true, false, 0⟩], [], [], 1⟩

/-- Store with the single accepted FriendRequest 1→2 (witness fixture). -/
def exAcc : Store := ⟨[], [⟨0, 2, 1, false, true, 0⟩], [], [], 1⟩

/-- Claim C3: `FriendManager.create` fails with the no-request error when no
FriendRequest exists between the pair in either direction, fails with the
distinct not-accepted error when the pair request exists but `is_accepted` is
false, and succeeds when the pair request is accepted — the request may be
oriented either way, so for an accepted request A→B, creating the Friend
(user=B, friend_of=A) succeeds. -/
theorem friend_creation_preconditions (s : Store) (user friend_of : Nat) :
    (requestsBetween s user friend_of = [] →
      friendCreate s user friend_of = (s, some Err.noFriendRequest)) ∧
    (∀ r, requestsBetween s user friend_of = [r] → r.is_accepted = false →
      friendCreate s user friend_of = (s, some Err.requestNotAccepted)) ∧
    (∀ r, requestsBetween s user friend_of = [r] → r.is_accepted = true →
      (friendCreate s user friend_of).2 = none) := by
  refine ⟨?_, ?_, ?_⟩
  · intro h
    have hg : get_or_none s user friend_of = none :=
      (get_or_none_eq_none_iff s user friend_of).mpr h
    simp [friendCreate, hg]
  · intro r h hacc
    have hg := get_or_none_of_singleton s user friend_of r h
    simp [friendCreate, hg, hacc]
  · intro r h hacc
    have hg := get_or_none_of_singleton s user friend_of r h
    simp [friendCreate, hg, hacc]

/-- Witness for C3: the three branches at concrete stores; in the third the
accepted request is 1→2 and the Friend is created as (user=2, friend_of=1). -/
theorem friend_creation_preconditions_witness :
    friendCreate emptyStore 1 2 = (emptyStore, some Err.noFriendRequest) ∧
    friendCreate exNA 1 2 = (exNA, some Err.requestNotAccepted) ∧
    (friendCreate exAcc 2 1).2 = none :=
  ⟨(friend_creation_preconditions emptyStore 1 2).1 (by decide),
   (friend_creation_preconditions exNA 1 2).2.1 ⟨0, 2, 1, true, false, 0⟩
     (by decide) (by decide),
   (friend_creation_preconditions exAcc 2 1).2.2 ⟨0, 2, 1, false, true, 0⟩
     (by decide) (by decide)⟩

/-- Store with the single FriendRequest pk=1 from user 1 to user 2 (fixture
for the FriendRequest permission theorems). -/
def exC7 : Store := ⟨[], [⟨1, 2, 1, true, false, 0⟩], [], [], 2⟩

/-- Counterexample to C7 as stated: user 1 is the *sender* (`from_user`) of
request pk=1, yet DELETE through `ManageFriendRequestView` is rejected with
`PermissionDenied` — deletion is not permitted to the sender, only to the
recipient. -/
theorem friendRequest_delete_by_sender_forbidden :
    (⟨1, 2, 1, true, false, 0⟩ : FriendRequest).from_user = 1 ∧
    (⟨1, 2, 1, true, false, 0⟩ : FriendRequest).to_user ≠ 1 ∧
    exC7.friendRequests = [⟨1, 2, 1, true, false, 0⟩] ∧
    deleteFriendRequest exC7 1 1 = Except.error HttpErr.forbidden :=
  ⟨rfl, by decide, rfl, rfl⟩

/-- Claim C7 (amended): update *and* delete on a FriendRequest both go
through the same `get_object` permission check: each is permitted exactly
when the acting user is the request's `to_user` (the recipient), and fails
with `PermissionDenied` otherwise — deletion by the sender alone is also
forbidden. -/
theorem friendRequest_manage_gated_to_recipient (s : Store) (actor pk : Nat)
    (pt pf : Option Nat) (pn pa : Option Bool) (r : FriendRequest)
    (hfind : (s.friendRequests.find? fun q => q.pk == pk) = some r) :
    (actor ≠ r.to_user →
      updateFriendRequest s actor pk pt pf pn pa = Except.error HttpErr.forbidden ∧
      deleteFriendRequest s actor pk = Except.error HttpErr.forbidden) ∧
    (actor = r.to_user →
      (∃ s2, updateFriendRequest s actor pk pt pf pn pa = Except.ok s2) ∧
      (∃ s2, deleteFriendRequest s actor pk = Except.ok s2)) := by
  constructor
  · intro hne
    have hobj : getFriendRequestObject s actor pk = Except.error HttpErr.forbidden := by
      simp [getFriendRequestObject, hfind, hne]
    constructor
    · simp [updateFriendRequest, hobj]
    · simp [deleteFriendRequest, hobj]
  · intro heq
    have hobj : getFriendRequestObject s actor pk = Except.ok r := by
      simp [getFriendRequestObject, hfind, heq]
    constructor
    · exact ⟨{ s with friendRequests := s.friendRequests.map fun q =>
        if q.pk == pk then
          { q with
              to_user := pt.getD q.to_user,
              from_user := pf.getD q.from_user,
              is_new := pn.getD q.is_new,
              is_accepted := pa.getD q.is_accepted }
          else q },
        by simp [updateFriendRequest, hobj]⟩
    · exact ⟨{ s with friendRequests := s.friendRequests.filter fun q => q.pk != pk },
        by simp [deleteFriendRequest, hobj]⟩

/-- Witness for C7 (amended): on `exC7` (request pk=1, 1→2), user 3 can
neither update nor delete, while the recipient (user 2) can do both. -/
theorem friendRequest_manage_gated_to_recipient_witness :
    (updateFriendRequest exC7 3 1 none none (some false) (some true) =
        Except.error HttpErr.forbidden ∧
     deleteFriendRequest exC7 3 1 = Except.error HttpErr.forbidden) ∧
    ((∃ s2, updateFriendRequest exC7 2 1 none none (some false) (some true) =
        Except.ok s2) ∧
     (∃ s2, deleteFriendRequest exC7 2 1 = Except.ok s2)) :=
  ⟨(friendRequest_manage_gated_to_recipient exC7 3 1 none none (some false) (some true)
      ⟨1, 2, 1, true, false, 0⟩ (by decide)).1 (by decide),
   (friendRequest_manage_gated_to_recipient exC7 2 1 none none (some false) (some true)
      ⟨1, 2, 1, true, false, 0⟩ (by decide)).2 (by decide)⟩

/-- C2 at the failing input: with key 100000005 already assigned and the
random tape drawing 100000005 and then 100000007, the generator *returns the
colliding key* 100000005 — the recursive retry runs (and would have found the
free key 100000007) but its result is discarded by the source. -/
theorem generate_crypto_key_returns_colliding_key :
    generate_crypto_key [100000005] [5, 7] = some 100000005 ∧
    100000005 ∈ [100000005] := by
  decide

/-- Every key the generator returns lies in the drawn range
[100000000, 999999999]. -/
theorem generate_crypto_key_mem_range (existing : List Nat) :
    ∀ draws k, generate_crypto_key existing draws = some k →
      100000000 ≤ k ∧ k ≤ 999999999 := by
  intro draws
  induction draws with
  | nil =>
    intro k h
    cases h
  | cons x xs ih =>
    intro k h
    have hx : 100000000 ≤ randint 100000000 999999999 x ∧
        randint 100000000 999999999 x ≤ 999999999 := by
      unfold randint
      have := Nat.mod_lt x (y := 999999999 - 100000000 + 1) (by decide)
      omega
    simp only [generate_crypto_key] at h
    split at h
    · split at h
      · cases h
      · cases h
        exact hx
    · cases h
      exact hx

/-- Claim C10: every key returned by `_generate_crypto_key` lies in
[100000000, 999999999]; no integer passes both declared validators of the
`crypto_key` field (`MinValueValidator(1000000000)` together with
`MaxValueValidator(999999999)` is unsatisfiable); hence every generated key
is strictly below the field's declared minimum. -/
theorem crypto_key_range_below_declared_min :
    (∀ k : Nat, ¬crypto_key_validators_pass k) ∧
    (∀ existing draws (k : Nat), generate_crypto_key existing draws = some k →
      100000000 ≤ k ∧ k ≤ 999999999 ∧ k < crypto_key_declared_min) := by
  constructor
  · intro k hk
    rcases hk with ⟨h1, h2⟩
    rw [crypto_key_declared_min] at h1
    rw [crypto_key_declared_max] at h2
    omega
  · intro existing draws k h
    have hrange := generate_crypto_key_mem_range existing draws k h
    refine ⟨hrange.1, hrange.2, ?_⟩
    rw [crypto_key_declared_min]
    omega

/-- Witness for C10: the key generated from tape value 5 over an empty store
is 100000005, inside the drawn range and below the declared minimum. -/
theorem crypto_key_range_below_declared_min_witness :
    ¬crypto_key_validators_pass 100000005 ∧
    (100000000 ≤ 100000005 ∧ 100000005 ≤ 999999999 ∧
      100000005 < crypto_key_declared_min) :=
  ⟨crypto_key_range_below_declared_min.1 100000005,
   crypto_key_range_below_declared_min.2 [] [5] 100000005 (by decide)⟩

/-- Claim C5 (amended): `ListMessageView.get_queryset` answers 404 when the
other user does not exist, and 404 when no Friend row
(user=other, friend_of=current) exists — only that single direction is
checked; when more than one such row exists (nothing prevents duplicate
Friend rows) the uncaught `MultipleObjectsReturned` escapes instead of a
message list; when exactly one such row exists it returns exactly the union
of the messages sent in both directions between the two users, ordered by
`sent_on` descending, so every stored message between the pair — in
particular one just created — appears in the returned sequence. -/
theorem list_conversation_spec (s : Store) (current fpk : Nat) :
    ((s.users.any fun u => u.pk == fpk) = false →
      listConversation s current (some fpk) = Except.error HttpErr.notFound) ∧
    ((s.users.any fun u => u.pk == fpk) = true →
      (s.friends.filter fun f => f.user == fpk && f.friend_of == current) = [] →
      listConversation s current (some fpk) = Except.error HttpErr.notFound) ∧
    ((s.users.any fun u => u.pk == fpk) = true →
      2 ≤ (s.friends.filter fun f => f.user == fpk && f.friend_of == current).length →
      listConversation s current (some fpk) =
        Except.error HttpErr.multipleObjectsReturned) ∧
    ((s.users.any fun u => u.pk == fpk) = true →
      ∀ f0, (s.friends.filter fun f => f.user == fpk && f.friend_of == current) = [f0] →
      ∃ l, listConversation s current (some fpk) = Except.ok l ∧
        l.Perm (s.messages.filter (betweenUsers current fpk)) ∧
        l.Sorted msgLater ∧
        ∀ m ∈ s.messages, betweenUsers current fpk m = true → m ∈ l) := by
  refine ⟨?_, ?_, ?_, ?_⟩
  · intro h
    simp [listConversation, h]
  · intro h1 h2
    simp [listConversation, h1, h2]
  · intro h1 h2
    rcases hF : s.friends.filter fun f => f.user == fpk && f.friend_of == current with
      _ | ⟨x, _ | ⟨y, rest⟩⟩
    · rw [hF] at h2
      simp at h2
    · rw [hF] at h2
      simp at h2
    · simp [listConversation, h1, hF]
  · intro h1 f0 hF
    refine ⟨List.insertionSort msgLater (s.messages.filter (betweenUsers current fpk)),
      ?_, ?_, ?_, ?_⟩
    · simp [listConversation, h1, hF]
    · exact List.perm_insertionSort msgLater _
    · exact List.sorted_insertionSort msgLater _
    · intro m hm hb
      have hmem : m ∈ s.messages.filter (betweenUsers current fpk) :=
        List.mem_filter.mpr ⟨hm, hb⟩
      exact ((List.perm_insertionSort msgLater _).mem_iff).mpr hmem

/-- Store fixture for the C5 witness: user 2 exists, user 2 is a friend of
user 1 in the checked direction, and two messages exist between them. -/
def exS5 : Store :=
  ⟨[⟨2, 123456789, "u", "e", true, false⟩], [],
   [⟨0, 2, none, 1, 0, false⟩],
   [⟨1, "a", 2, 1, true, 10⟩, ⟨2, "b", 1, 2, true, 20⟩], 3⟩

/-- Witness for C5: on `exS5`, listing the conversation of user 1 with user 2
returns the two stored messages, sorted newest-first. -/
theorem list_conversation_spec_witness :
    ∃ l, listConversation exS5 1 (some 2) = Except.ok l ∧
      l.Perm (exS5.messages.filter (betweenUsers 1 2)) ∧
      l.Sorted msgLater ∧
      ∀ m ∈ exS5.messages, betweenUsers 1 2 m = true → m ∈ l :=
  (list_conversation_spec exS5 1 2).2.2.2 (by decide)
    ⟨0, 2, none, 1, 0, false⟩ (by decide)

/-- `exS5` with the Friend row (user=2, friend_of=1) duplicated — reachable
through the API, since `Friend` has no uniqueness constraint and
`FriendManager.create` only checks that the accepted FriendRequest (which
persists after acceptance) exists. -/
def exS5dup : Store :=
  ⟨[⟨2, 123456789, "u", "e", true, false⟩], [],
   [⟨0, 2, none, 1, 0, false⟩, ⟨1, 2, none, 1, 0, false⟩],
   [⟨1, "a", 2, 1, true, 10⟩, ⟨2, "b", 1, 2, true, 20⟩], 3⟩

/-- Counterexample to C5 as stated: user 2 exists and a Friend row
(user=2, friend_of=1) exists, yet `listConversation` does not return the
messages — with the row duplicated, `get_object_or_404(Friend, ...)` raises
the uncaught `MultipleObjectsReturned` (a 500) instead. -/
theorem list_conversation_duplicate_friend_crash :
    (exS5dup.users.any fun u => u.pk == 2) = true ∧
    (exS5dup.friends.any fun f => f.user == 2 && f.friend_of == 1) = true ∧
    listConversation exS5dup 1 (some 2) =
      Except.error HttpErr.multipleObjectsReturned :=
  ⟨by decide, by decide, rfl⟩
